import Mathlib

/-!
# Verification of the OMDb integration subsystem

A shallow embedding of `movies/omdb_integration.py` and `omdb/client.py`:
Python runtime values become the inductive `Val`, exceptions become
`Except PyErr`, and the orchestration functions become explicit
state-passing functions over a `DB` record, emitting a trace of upstream
`Effect`s.
-/

/-- Python exception classes relevant to the code: `TypeError` (caught
specially by the probing loops), `AttributeError` (missing attribute on a
call target), `ValueError` (raised by `OmdbClient._make_request` on a
`Response == "False"` payload), `requests.HTTPError` (from
`raise_for_status`), and a catch-all for any other `Exception`. -/
inductive PyErr where
  | typeError
  | attributeError
  | valueError
  | httpError
  | otherError
  deriving DecidableEq, Repr

/-- A Python runtime value as the integration code can observe it:
`None`, bools, ints, strings, lists (also standing for tuples), dicts
with string keys, attribute-bearing objects, and zero-argument callables.
A callable is characterised by the outcome of calling it: `Sum.inl e`
models a call that raises `e`, `Sum.inr v` a call returning `v`
(the runs are single-threaded and deterministic, so a zero-argument
callable is its outcome). -/
inductive Val where
  | none
  | bool (b : Bool)
  | int (n : Int)
  | str (s : String)
  | vlist (xs : List Val)
  | dict (entries : List (String × Val))
  | obj (attrs : List (String × Val))
  | func (r : PyErr ⊕ Val)
  deriving Repr

/-- Python truthiness (`bool(v)`): `None`, `False`, `0`, `""`, `[]` and
`{}` are falsy; objects and functions are truthy. -/
def pyTruthy : Val → Bool
  | .none => false
  | .bool b => b
  | .int n => n != 0
  | .str s => s != ""
  | .vlist xs => !xs.isEmpty
  | .dict es => !es.isEmpty
  | .obj _ => true
  | .func _ => true

/-- Python `a or b`: `a` when truthy, else `b`. -/
def pyOr (a b : Val) : Val := if pyTruthy a then a else b

mutual
/-- Python `==` on the values above.  Numeric cross-equality of `bool`
and `int` is modelled (`True == 1`); containers compare element-wise;
functions compare by identity, which distinct literals never share. -/
def pyEq : Val → Val → Bool
  | .none, .none => true
  | .bool a, .bool b => a == b
  | .bool a, .int b => (if a then (1 : Int) else 0) == b
  | .int a, .bool b => a == (if b then (1 : Int) else 0)
  | .int a, .int b => a == b
  | .str a, .str b => a == b
  | .vlist a, .vlist b => pyEqList a b
  | .dict a, .dict b => pyEqEntries a b
  | _, _ => false

def pyEqList : List Val → List Val → Bool
  | [], [] => true
  | a :: as, b :: bs => pyEq a b && pyEqList as bs
  | _, _ => false

def pyEqEntries : List (String × Val) → List (String × Val) → Bool
  | [], [] => true
  | (ka, va) :: as, (kb, vb) :: bs => ka == kb && pyEq va vb && pyEqEntries as bs
  | _, _ => false
end

/-! ## String primitives used by the Python code

The models of `str()`, `str.isdigit`, `int()`, `str.strip`, `str.lower`,
`re.match(r"^\d\x7b4\x7d", s)`, `re.search(r"(\d+)", s)` and
`re.sub(r"\s+", " ", s)` restrict digits and whitespace to their ASCII
ranges; no claim depends on the non-ASCII behaviour of these Python
primitives. -/

/-- `str(v)`. Exact for `None`, bools, ints and strings — the only shapes
whose text the normalizers' regex and strip paths can distinguish.  The
CPython representations of containers, objects and functions begin with
`[`, `\x7b`, or `<` and are never empty, so they are abstracted to fixed
digit-free non-empty placeholders, which preserves every match/strip
outcome in the code. -/
def pyStr : Val → String
  | .none => "None"
  | .bool true => "True"
  | .bool false => "False"
  | .int n => toString n
  | .str s => s
  | .vlist _ => "<list>"
  | .dict _ => "<dict>"
  | .obj _ => "<object>"
  | .func _ => "<function>"

/-- `s.isdigit()`: non-empty and all characters are (ASCII) digits. -/
def pyIsDigit (s : String) : Bool :=
  s != "" && s.data.all Char.isDigit

/-- Numeric value of one ASCII digit character. -/
def digitVal (c : Char) : Int := (c.toNat : Int) - 48

/-- Value of a digit run, most significant first. -/
def digitsVal (cs : List Char) : Int :=
  cs.foldl (fun acc c => acc * 10 + digitVal c) 0

/-- `int(s)` on a string that passed `isdigit`: the value of its digits
(leading zeros allowed). -/
def strToInt (s : String) : Int :=
  digitsVal s.data

/-- `re.match(r"^\d\x7b4\x7d", s)` followed by `int(m.group(0))`: the
integer value of the first four characters when all four are digits,
else no match. -/
def leading4 (s : String) : Option Int :=
  match s.data with
  | a :: b :: c :: d :: _ =>
    if a.isDigit && b.isDigit && c.isDigit && d.isDigit then
      some (digitsVal [a, b, c, d])
    else Option.none
  | _ => Option.none

/-- `re.search(r"(\d+)", s)` followed by `int(m.group(1))`: the value of
the first maximal digit run, if any. -/
def firstDigitRun : List Char → Option Int
  | [] => Option.none
  | c :: rest =>
    if c.isDigit then some (digitsVal (c :: rest.takeWhile Char.isDigit))
    else firstDigitRun rest

/-- `re.sub(r"\s+", " ", s)` on the character list: every maximal
whitespace run becomes a single space.  The flag records whether the
previous character was part of a run already replaced. -/
def collapseWsAux : Bool → List Char → List Char
  | _, [] => []
  | inRun, c :: rest =>
    if c.isWhitespace then
      (if inRun then [] else [' ']) ++ collapseWsAux true rest
    else c :: collapseWsAux false rest

def collapseWs (s : String) : String :=
  String.mk (collapseWsAux false s.data)

/-- `c.lower()` for one character (ASCII model). -/
def pyCharLower (c : Char) : Char :=
  if 'A' ≤ c && c ≤ 'Z' then Char.ofNat (c.toNat + 32) else c

/-- `s.lower()` (ASCII model). -/
def pyLower (s : String) : String :=
  String.mk (s.data.map pyCharLower)

/-- `re.sub(r"\s+", " ", search.lower())` from `search_and_save`. -/
def normalizeSearchTermStr (s : String) : String :=
  collapseWs (pyLower s)

/-! ## Dict and attribute access -/

/-- `d.get(key)` (default `None`). -/
def dictGet (entries : List (String × Val)) (key : String) : Val :=
  match entries.find? (fun p => p.1 == key) with
  | some p => p.2
  | Option.none => Val.none

/-- `getattr(v, name, None)` without calling anything: only objects carry
the attributes this code consults; on every other modelled value the
default `None` is returned (ints, lists, dicts and strings have none of
the probed attribute names). -/
def getattrRaw (v : Val) (name : String) : Val :=
  match v with
  | .obj attrs => dictGet attrs name
  | _ => Val.none

/-- `_callable_attr(obj, name)` (omdb_integration.py:67-70): fetch the
attribute with default `None` and call it if callable — a call that the
callable models as raising propagates. -/
def callableAttr (v : Val) (name : String) : Except PyErr Val :=
  match getattrRaw v name with
  | .func (Sum.inl e) => .error e
  | .func (Sum.inr w) => .ok w
  | w => .ok w

/-- `s.strip()` (ASCII-whitespace model). -/
def pyStrip (s : String) : String :=
  String.mk (((s.data.dropWhile Char.isWhitespace).reverse.dropWhile
    Char.isWhitespace).reverse)

/-- `s.split(",")`: the chunks between commas, empty chunks kept
(`"".split(",") == [""]`). -/
def splitCommaAux (acc : List Char) : List Char → List String
  | [] => [String.mk acc.reverse]
  | c :: rest =>
    if c == ',' then String.mk acc.reverse :: splitCommaAux [] rest
    else splitCommaAux (c :: acc) rest

def pySplitComma (s : String) : List String :=
  splitCommaAux [] s.data

/-! ## The Detail Normalizer (`_normalize_detail_obj`, lines 73-146) -/

/-- `isinstance(v, int)` — Python bools are ints. -/
def isInstInt : Val → Bool
  | .int _ => true
  | .bool _ => true
  | _ => false

/-- `isinstance(v, str) and v.isdigit()`. -/
def isDigitStr : Val → Bool
  | .str s => pyIsDigit s
  | _ => false

/-- The year-normalization block of `_normalize_detail_obj`
(lines 108-118), translated clause for clause:

```
try:
    if isinstance(year, int): year_val = year
    elif isinstance(year, str) and year.isdigit(): year_val = int(year)
    else:
        m = re.match("^\x5cd\x7b4\x7d", str(year)) if year is not None else None
        year_val = int(m.group(0)) if m else None
except Exception: year_val = None
```

The guarded operations (`int` on an isdigit string, `str`, `int` on a
4-digit match) are total on the modelled values, so the handler has
nothing to catch here; CPython reaches it only through non-ASCII digit
classes that the string model excludes, where both this block and the
inline copy in `search_and_save` behave identically anyway. -/
def normalizeYearDetail (year : Val) : Val :=
  if isInstInt year then year
  else if isDigitStr year then .int (strToInt (pyStr year))
  else
    match (match year with
           | .none => Option.none
           | y => leading4 (pyStr y)) with
    | some n => .int n
    | Option.none => Val.none

/-- The inline year-normalization block of `search_and_save`
(lines 305-316): the same clauses, written as an `elif year is not None`
chain over a `year_val = None` initialisation instead of the detail
block's conditional expression. -/
def normalizeYearInline (year : Val) : Val :=
  if isInstInt year then year
  else if isDigitStr year then .int (strToInt (pyStr year))
  else
    match year with
    | .none => Val.none
    | y =>
      match leading4 (pyStr y) with
      | some n => .int n
      | Option.none => Val.none

/-- The runtime-normalization block (lines 120-129): ints pass through,
strings yield their first digit run, anything else (or no match) stays
`None`. -/
def normalizeRuntime (runtimeStr : Val) : Val :=
  if isInstInt runtimeStr then runtimeStr
  else
    match runtimeStr with
    | .str s =>
      match firstDigitRun s.data with
      | some n => .int n
      | Option.none => Val.none
    | _ => Val.none

/-- The genre-normalization block (lines 131-137): a string is split on
commas, each part stripped, empty parts dropped; a list (or tuple) has
each element stringified and stripped, empty results dropped; anything
else yields `[]`. -/
def normalizeGenres (genres : Val) : List String :=
  match genres with
  | .str s => ((pySplitComma s).map pyStrip).filter (fun g => g != "")
  | .vlist xs => (xs.map (fun g => pyStrip (pyStr g))).filter (fun g => g != "")
  | _ => []

/-- The canonical record `_normalize_detail_obj` returns.  The Python
function returns a dict with exactly these six keys (or `\x7b\x7d` for a
`None` input, which every caller observes — through `.get` with `None`
or `[]` defaults — exactly as the all-null record). -/
structure CanonicalDetail where
  title : Val
  year : Val
  imdbID : Val
  plot : Val
  runtimeMinutes : Val
  genres : List String
  deriving Repr

/-- The all-null canonical record (`return \x7b\x7d` as observed by the
callers). -/
def emptyDetail : CanonicalDetail :=
  ⟨Val.none, Val.none, Val.none, Val.none, Val.none, []⟩

/-- Assemble the output record from the six extracted raw fields by
running the three normalization blocks. -/
def assembleDetail (title year imdbId plot runtimeStr genres : Val) :
    CanonicalDetail :=
  ⟨title, normalizeYearDetail year, imdbId, plot,
    normalizeRuntime runtimeStr, normalizeGenres genres⟩

/-- The field-extraction phase of `_normalize_detail_obj` (lines 82-106):
the six raw values `(title, year, imdb_id, plot, runtime_str, genres)`.
The dict branch reads keys with alias fallbacks via `or`; the string
branch keeps only a title; every other value takes the attribute branch,
whose `_callable_attr` calls can raise (`v()` is not guarded). -/
def extractDetailFields (detail : Val) :
    Except PyErr (Val × Val × Val × Val × Val × Val) :=
  match detail with
  | .dict d =>
    .ok (dictGet d "Title", dictGet d "Year",
      pyOr (dictGet d "imdbID") (pyOr (dictGet d "imdbId") (dictGet d "imdb_id")),
      dictGet d "Plot",
      pyOr (dictGet d "Runtime") (dictGet d "runtime"),
      pyOr (dictGet d "Genre") (dictGet d "genres"))
  | .str s =>
    .ok (.str s, Val.none, Val.none, Val.none, Val.none, Val.none)
  | other => do
    let title ← callableAttr other "title"
    let year ← callableAttr other "year"
    let i1 ← callableAttr other "imdb_id"
    let imdbId ← if pyTruthy i1 then pure i1 else callableAttr other "imdbID"
    let plot ← callableAttr other "plot"
    let r1 ← callableAttr other "runtime"
    let runtimeStr ← if pyTruthy r1 then pure r1
                     else callableAttr other "runtime_minutes"
    let genres ← callableAttr other "genres"
    .ok (title, year, imdbId, plot, runtimeStr, genres)

/-- `_normalize_detail_obj(detail)` (lines 73-146): `None` short-circuits
to the empty record, otherwise the extracted fields are normalized into
the canonical record.  The extraction is the only phase that can raise. -/
def normalizeDetailObj (detail : Val) : Except PyErr CanonicalDetail :=
  match detail with
  | .none => .ok emptyDetail
  | d =>
    match extractDetailFields d with
    | .error e => .error e
    | .ok (title, year, imdbId, plot, runtimeStr, genres) =>
      .ok (assembleDetail title year imdbId plot runtimeStr genres)

/-! ## The client model and the Method-Probing Resolver
(`_fetch_by_imdb_id`, lines 14-59) -/

/-- The argument shapes the integration code passes to client methods:
`f(x)`, `f(imdbid=x)`, `f(id=x)` (by-ID probing), `f(title=x)` and
`f(title=x, year=y)` (title resolution). -/
inductive CallArgs where
  | pos (v : Val)
  | kwImdbid (v : Val)
  | kwId (v : Val)
  | kwTitle (v : Val)
  | kwTitleYear (title year : Val)

/-- The calling convention alone, recorded in the effect trace. -/
inductive ConvTag where
  | pos
  | kwImdbid
  | kwId
  | kwTitle
  | kwTitleYear
  deriving DecidableEq, Repr

def tagOf : CallArgs → ConvTag
  | .pos _ => .pos
  | .kwImdbid _ => .kwImdbid
  | .kwId _ => .kwId
  | .kwTitle _ => .kwTitle
  | .kwTitleYear _ _ => .kwTitleYear

/-- `getattr(client, name, None)` on the client: the attribute may be
absent, a non-callable value, or a method characterised by what each
invocation returns or raises. -/
inductive ClientSlot where
  | absent
  | plain (v : Val)
  | callable (f : CallArgs → Except PyErr Val)

def ClientSlot.isCallable : ClientSlot → Bool
  | .callable _ => true
  | _ => false

/-- The client object of unknown interface: a slot per attribute name. -/
structure Client where
  slot : String → ClientSlot

/-- One observable upstream interaction: a client-method invocation
(name and calling convention), the `omdb_client.search(search)` call
with its argument, or the direct HTTP fallback GET. -/
inductive Effect where
  | call (name : String) (conv : ConvTag)
  | searchCall (q : String)
  | httpGet
  deriving DecidableEq, Repr

/-- Prefix a trace onto a result-with-trace pair. -/
def withEff {α : Type} (pre : List Effect) (p : α × List Effect) :
    α × List Effect :=
  (p.1, pre ++ p.2)

/-- The three-convention attempt on one candidate getter (lines 25-36).
`except TypeError` around the positional call falls through to
`getter(imdbid=...)`; but that second call stands *inside* the
`except TypeError:` handler with only a nested `except TypeError` around
it, so a non-`TypeError` it raises is caught by no clause of this `try`
and propagates out of `_fetch_by_imdb_id`.  The innermost
`getter(id=...)` is wrapped in `except Exception`, so nothing it raises
escapes.  `.ok none` means "continue with the next candidate name". -/
def tryGetterConvs (name : String) (f : CallArgs → Except PyErr Val)
    (imdbId : Val) : Except PyErr (Option Val) × List Effect :=
  let e1 := Effect.call name ConvTag.pos
  let e2 := Effect.call name ConvTag.kwImdbid
  let e3 := Effect.call name ConvTag.kwId
  match f (.pos imdbId) with
  | .ok v => (.ok (some v), [e1])
  | .error .typeError =>
    match f (.kwImdbid imdbId) with
    | .ok v => (.ok (some v), [e1, e2])
    | .error .typeError =>
      match f (.kwId imdbId) with
      | .ok v => (.ok (some v), [e1, e2, e3])
      | .error _ => (.ok Option.none, [e1, e2, e3])
    | .error e => (.error e, [e1, e2])
  | .error _ => (.ok Option.none, [e1])

/-- The ranked candidate method names of line 20. -/
def probeNames : List String :=
  ["get_by_imdb_id", "by_id", "get_movie", "movie", "id", "lookup", "get"]

/-- The `for name in (...)` probing loop (lines 20-36): skip attributes
that are absent or not callable, return the first successful call's
payload, and stop at a propagating exception. -/
def probeLoop (client : Client) (imdbId : Val) :
    List String → Except PyErr (Option Val) × List Effect
  | [] => (.ok Option.none, [])
  | name :: rest =>
    match client.slot name with
    | .callable f =>
      match tryGetterConvs name f imdbId with
      | (.ok (some v), eff) => (.ok (some v), eff)
      | (.ok Option.none, eff) => withEff eff (probeLoop client imdbId rest)
      | (.error e, eff) => (.error e, eff)
    | _ => probeLoop client imdbId rest

/-- The Django settings attributes the subsystem reads
(`getattr(settings, ..., None/False)`); an absent setting is `None`. -/
structure Settings where
  OMDB_API_KEY : Val
  OMDB_APIKEY : Val
  OMDB_KEY : Val
  OMDB_ALLOW_RESCRAPE : Val
  DEBUG : Val

/-- The HTTP fallback world: the outcome of
`requests.get(...); resp.raise_for_status(); resp.json()` as one unit —
either a raised transport/JSON exception or the decoded JSON value. -/
abbrev HttpWorld := Except PyErr Val

/-- The HTTP-fallback tail of `_fetch_by_imdb_id` (lines 38-59) plus the
probe loop: the whole of `_fetch_by_imdb_id`, with its effect trace.
The fallback never raises (all of it is inside `try/except Exception`):
a falsy API key logs and returns `None` without a request; a transport
error, a non-dict JSON value (whose `.get` raises inside the `try`), or
a `Response` other than `"True"` all yield `None`. -/
def fetchByImdbIdE (client : Client) (st : Settings) (http : HttpWorld)
    (imdbId : Val) : Except PyErr Val × List Effect :=
  match probeLoop client imdbId probeNames with
  | (.error e, eff) => (.error e, eff)
  | (.ok (some v), eff) => (.ok v, eff)
  | (.ok Option.none, eff) =>
    let apiKey := pyOr st.OMDB_API_KEY (pyOr st.OMDB_APIKEY st.OMDB_KEY)
    if !pyTruthy apiKey then (.ok Val.none, eff)
    else
      match http with
      | .error _ => (.ok Val.none, eff ++ [Effect.httpGet])
      | .ok data =>
        match data with
        | .dict d =>
          if (match dictGet d "Response" with
              | .str s => s == "True"
              | _ => false) then
            (.ok data, eff ++ [Effect.httpGet])
          else (.ok Val.none, eff ++ [Effect.httpGet])
        | _ => (.ok Val.none, eff ++ [Effect.httpGet])

/-- `_fetch_by_imdb_id` without the trace. -/
def fetchByImdbId (client : Client) (st : Settings) (http : HttpWorld)
    (imdbId : Val) : Except PyErr Val :=
  (fetchByImdbIdE client st http imdbId).1

/-! ## The Search-Item Normalizer (`_normalize_search_item`, lines 181-223) -/

/-- The record `_normalize_search_item` returns (a four-key dict in
Python). -/
structure SearchItem where
  title : Val
  year : Val
  imdbID : Val
  type : Val
  deriving Repr

/-- `res.get("Type") if isinstance(res, dict) else getattr(res, "type",
None)` (line 199) — a raw attribute read, NOT `_callable_attr`: a
callable `type` attribute is returned uncalled. -/
def typeAttrOf (res : Val) : Val :=
  match res with
  | .dict d => dictGet d "Type"
  | r => getattrRaw r "type"

/-- The fallback of the string variant (line 206). -/
def stringFallback (s : String) : SearchItem :=
  ⟨.str s, Val.none, Val.none, Val.none⟩

/-- The string-variant loop of `_normalize_search_item` (lines 188-206):
`get` is invoked as `getter(title=item)`, every other name as
`getter(item)`; a `TypeError` anywhere in the `try` body moves to the
next name (`continue`), any other exception logs and `break`s to the
fallback; a falsy result also moves on.  The whole body — getter call,
`_normalize_detail_obj(res)` and the merge — sits inside the `try`. -/
def stringLookupGo (client : Client) (s : String) :
    List String → SearchItem × List Effect
  | [] => (stringFallback s, [])
  | name :: rest =>
    match client.slot name with
    | .callable f =>
      let args := if name == "get" then CallArgs.kwTitle (.str s)
                  else CallArgs.pos (.str s)
      let e := Effect.call name (tagOf args)
      match f args with
      | .error .typeError => withEff [e] (stringLookupGo client s rest)
      | .error _ => (stringFallback s, [e])
      | .ok res =>
        if pyTruthy res then
          match normalizeDetailObj res with
          | .error .typeError => withEff [e] (stringLookupGo client s rest)
          | .error _ => (stringFallback s, [e])
          | .ok det =>
            (⟨pyOr det.title (.str s), det.year, det.imdbID, typeAttrOf res⟩,
             [e])
        else withEff [e] (stringLookupGo client s rest)
    | _ => stringLookupGo client s rest

/-- The lookup-method ranking of line 188. -/
def titleLookupNames : List String := ["get", "get_by_title", "title", "by_title"]

/-- `_normalize_search_item(item, omdb_client)`: strings go through the
lookup loop (never raising), dicts are read directly (alias order
`imdbID`, `imdb_id`, `imdbId` — note it differs from the detail
normalizer's), and any other value takes the attribute branch, whose
`_callable_attr` calls can raise. -/
def normalizeSearchItemE (client : Client) (item : Val) :
    Except PyErr SearchItem × List Effect :=
  match item with
  | .str s =>
    let (r, eff) := stringLookupGo client s titleLookupNames
    (.ok r, eff)
  | .dict d =>
    (.ok ⟨dictGet d "Title", dictGet d "Year",
      pyOr (dictGet d "imdbID") (pyOr (dictGet d "imdb_id") (dictGet d "imdbId")),
      dictGet d "Type"⟩, [])
  | other =>
    (do
      let t ← callableAttr other "title"
      let y ← callableAttr other "year"
      let i1 ← callableAttr other "imdb_id"
      let i ← if pyTruthy i1 then pure i1 else callableAttr other "imdbID"
      let ty ← callableAttr other "type"
      .ok (⟨t, y, i, ty⟩ : SearchItem), [])

/-! ## The persistence collaborator

Modelled from the spec: `movies/models.py` is not under `src/`; §3 of
the design gives the record shapes — SearchTerm `\x7bterm (unique key),
last_search: timestamp|null\x7d`, Movie `\x7bimdb_id (unique key),
title, year, plot, runtime_minutes, genres: set of Genre,
is_full_record: bool\x7d`, Genre `\x7bname (unique key)\x7d` — and §6
the key-unique upsert / get-or-create operations.  Timestamps are
integers (seconds); `timedelta(days=1)` is 86400. -/

structure SearchTermRec where
  term : String
  last_search : Option Int
  deriving Repr

structure MovieRec where
  imdb_id : Val
  title : Val
  year : Val
  plot : Val
  runtime_minutes : Val
  genres : List String
  is_full_record : Bool
  deriving Repr

structure DB where
  searchTerms : List SearchTermRec
  movies : List MovieRec
  genreNames : List String
  deriving Repr

def daySeconds : Int := 86400

def lookupTerm (db : DB) (t : String) : Option SearchTermRec :=
  db.searchTerms.find? (fun r => r.term == t)

/-- `SearchTerm.objects.get_or_create(term=t)`: the record, the
`created` flag, and the store (a fresh record has `last_search = None`). -/
def getOrCreateTerm (db : DB) (t : String) : SearchTermRec × Bool × DB :=
  match lookupTerm db t with
  | some r => (r, false, db)
  | Option.none =>
    (⟨t, Option.none⟩, true,
     { db with searchTerms := db.searchTerms ++ [⟨t, Option.none⟩] })

/-- `search_term.last_search = now(); search_term.save()`. -/
def stampTerm (db : DB) (t : String) (ts : Int) : DB :=
  { db with searchTerms := (List.map
      (fun r => if r.term == t then { r with last_search := some ts } else r)
      db.searchTerms) }

def findMovie (db : DB) (key : Val) : Option MovieRec :=
  db.movies.find? (fun m => pyEq m.imdb_id key)

/-- `Movie.objects.get_or_create(imdb_id=key, defaults=...)`: Title and
Year are set only on creation; the other columns take their model
defaults (null / empty / not-full). -/
def getOrCreateMovie (db : DB) (key title year : Val) : DB × Bool :=
  match findMovie db key with
  | some _ => (db, false)
  | Option.none =>
    ({ db with movies := db.movies ++
        [⟨key, title, year, Val.none, Val.none, [], false⟩] }, true)

/-- `movie.save()`: update the row with the same key, appending if new. -/
def saveMovie (db : DB) (m : MovieRec) : DB :=
  if db.movies.any (fun x => pyEq x.imdb_id m.imdb_id) then
    { db with movies := (List.map
        (fun x => if pyEq x.imdb_id m.imdb_id then m else x) db.movies) }
  else { db with movies := db.movies ++ [m] }

/-- Append each name not yet present (`Genre.objects.get_or_create`). -/
def getOrCreateGenreNames (db : DB) (names : List String) : DB :=
  { db with genreNames := (List.foldl
      (fun acc n => if acc.contains n then acc else acc ++ [n])
      db.genreNames names) }

/-- The genre set after `movie.genres.clear()` followed by `add` per
resolved genre: set semantics deduplicate. -/
def dedup (names : List String) : List String :=
  names.foldl (fun acc n => if acc.contains n then acc else acc ++ [n]) []

/-! ## Orchestration: `fill_movie_details` (lines 149-178) -/

/-- `fill_movie_details(movie)`: early return on a full record; fetch by
ID (which may raise through the probe's keyword path); a falsy payload
logs and returns without mutation; otherwise normalize (which may raise
on raising callable attributes), overwrite Title/Year only when the new
value is truthy, overwrite Plot/RuntimeMinutes unconditionally, replace
the genre set, mark full, save.  `get_client_from_settings()` is the
provided client (spec §6 treats client construction as an external
collaborator). -/
def fillMovieDetails (client : Client) (st : Settings) (http : HttpWorld)
    (movie : MovieRec) (db : DB) :
    Except PyErr (MovieRec × DB) × List Effect :=
  if movie.is_full_record then (.ok (movie, db), [])
  else
    match fetchByImdbIdE client st http movie.imdb_id with
    | (.error e, eff) => (.error e, eff)
    | (.ok detailsRaw, eff) =>
      if !pyTruthy detailsRaw then (.ok (movie, db), eff)
      else
        match normalizeDetailObj detailsRaw with
        | .error e => (.error e, eff)
        | .ok details =>
          let movie' : MovieRec :=
            { movie with
              title := pyOr details.title movie.title
              year := pyOr details.year movie.year
              plot := details.plot
              runtime_minutes := details.runtimeMinutes
              genres := dedup details.genres
              is_full_record := true }
          let db1 := getOrCreateGenreNames db details.genres
          (.ok (movie', saveMovie db1 movie'), eff)

/-! ## Orchestration: `search_and_save` (lines 234-331) -/

/-- `_should_override_cache_guard()` (lines 226-231). -/
def shouldOverrideCacheGuard (st : Settings) : Bool :=
  pyTruthy st.OMDB_ALLOW_RESCRAPE || pyTruthy st.DEBUG

/-- The `recent` flag of line 244:
`(not created) and (search_term.last_search and
 search_term.last_search > now() - timedelta(days=1))`,
computed against the store as it stood before the call. -/
def searchRecent (db : DB) (nterm : String) (nowT : Int) : Bool :=
  let (sterm, created, _) := getOrCreateTerm db nterm
  !created &&
    (match sterm.last_search with
     | some t => decide (t > nowT - daySeconds)
     | Option.none => false)

/-- `len(v)`: sized for strings, lists and dicts; raises `TypeError`
otherwise (the envelope-unwrap logs `len(inner)` eagerly). -/
def pyLen : Val → Except PyErr Int
  | .str s => .ok s.length
  | .vlist xs => .ok xs.length
  | .dict es => .ok es.length
  | _ => .error .typeError

/-- `for raw in v`: lists yield elements, strings their one-character
substrings, dicts their keys; anything else raises `TypeError`. -/
def pyIter : Val → Except PyErr (List Val)
  | .vlist xs => .ok xs
  | .str s => .ok (s.data.map (fun c => Val.str (String.mk [c])))
  | .dict es => .ok (es.map (fun p => Val.str p.1))
  | _ => .error .typeError

/-- Lines 260-271: `results = omdb_client.search(search) or []`, then
the envelope unwrap — on a dict, `Search`/`search`/`results` chained
with `or`, identity-compared against `None`; a surviving non-`None`
inner value is measured with `len` (the debug log) and then iterated. -/
def unwrapResults (v : Val) : Except PyErr (List Val) :=
  let results := pyOr v (.vlist [])
  match results with
  | .dict d =>
    let inner := pyOr (dictGet d "Search")
      (pyOr (dictGet d "search") (dictGet d "results"))
    match inner with
    | .none => .ok []
    | inner =>
      match pyLen inner with
      | .error e => .error e
      | .ok _ => pyIter inner
  | r => pyIter r

/-- `omdb_client.search(search)` (line 260): an attribute access plus a
positional call — absent raises `AttributeError`, a non-callable raises
`TypeError` without upstream contact, a method invocation contacts
upstream (traced) with the ORIGINAL query string. -/
def clientSearch (client : Client) (q : String) :
    Except PyErr Val × List Effect :=
  match client.slot "search" with
  | .absent => (.error .attributeError, [])
  | .plain _ => (.error .typeError, [])
  | .callable f => (f (.pos (.str q)), [Effect.searchCall q])

/-- The by-title re-resolution block (lines 288-299): when the item
carries no imdbID but has a title, call the client's `get` with
`title=` (and `year=` when a year is known); the whole attempt sits
inside `try/except Exception`, so a raising call or a raising
normalization of its result is logged and the original triple kept;
otherwise Title/Year/imdbID are each overwritten only by truthy
resolved values. -/
def resolveMissingId (client : Client) (title year imdbId : Val) :
    Val × Val × Val × List Effect :=
  if !pyTruthy imdbId && pyTruthy title then
    match client.slot "get" with
    | .callable f =>
      let args := if pyTruthy year then CallArgs.kwTitleYear title year
                  else CallArgs.kwTitle title
      let e := Effect.call "get" (tagOf args)
      match f args with
      | .error _ => (title, year, imdbId, [e])
      | .ok resolved =>
        match normalizeDetailObj resolved with
        | .error _ => (title, year, imdbId, [e])
        | .ok details =>
          (pyOr details.title title, pyOr details.year year,
           pyOr details.imdbID imdbId, [e])
    | _ => (title, year, imdbId, [])
  else (title, year, imdbId, [])

/-- Lines 301-325: skip the item (no store change) when there is still
no imdbID, else normalize the year inline and upsert the Movie row. -/
def upsertFromItem (db : DB) (title year imdbId : Val) : DB :=
  if !pyTruthy imdbId then db
  else (getOrCreateMovie db imdbId title (normalizeYearInline year)).1

/-- The body of the `for raw in results` loop (lines 275-327) for one
item: normalize; the `if not data` guard is dead (the normalizer always
returns a non-empty dict); skip non-`"movie"` typed items; re-resolve a
missing imdbID by title; skip if still no id; upsert the Movie. -/
def processItem (client : Client) (raw : Val) (db : DB) :
    Except PyErr DB × List Effect :=
  match normalizeSearchItemE client raw with
  | (.error e, eff) => (.error e, eff)
  | (.ok data, eff) =>
    if pyTruthy data.type && !pyEq data.type (.str "movie") then (.ok db, eff)
    else
      match resolveMissingId client data.title data.year data.imdbID with
      | (title, year, imdbId, eff2) =>
        (.ok (upsertFromItem db title year imdbId), eff ++ eff2)

/-- The whole result loop. -/
def processItems (client : Client) :
    List Val → DB → Except PyErr DB × List Effect
  | [], db => (.ok db, [])
  | raw :: rest, db =>
    match processItem client raw db with
    | (.error e, eff) => (.error e, eff)
    | (.ok db', eff) => withEff eff (processItems client rest db')

/-- `search_and_save(search)` (lines 234-331): normalize the query for
the cache key, get-or-create the SearchTerm, compute the Cache Guard's
`recent` flag, return early when recent and no override is configured;
otherwise search upstream with the ORIGINAL query, unwrap, process each
item, and finally stamp `last_search := now` on the SearchTerm. -/
def searchAndSave (client : Client) (st : Settings) (nowT : Int)
    (search : String) (db : DB) : Except PyErr DB × List Effect :=
  let nterm := normalizeSearchTermStr search
  let db1 := (getOrCreateTerm db nterm).2.2
  if searchRecent db nterm nowT && !shouldOverrideCacheGuard st then
    (.ok db1, [])
  else
    match clientSearch client search with
    | (.error e, eff1) => (.error e, eff1)
    | (.ok v, eff1) =>
      match unwrapResults v with
      | .error e => (.error e, eff1)
      | .ok items =>
        match processItems client items db1 with
        | (.error e, eff2) => (.error e, eff1 ++ eff2)
        | (.ok db2, eff2) => (.ok (stampTerm db2 nterm nowT), eff1 ++ eff2)

/-! ## The provided `OmdbClient` (omdb/client.py) -/

/-- One HTTP response for the client's transport: a status code and the
outcome of `.json()`. -/
structure HttpResponse where
  status : Int
  jsonBody : Except PyErr Val

/-- `OmdbClient._make_request` (client.py lines 66-90): non-200 raises
(`raise_for_status`), then `.json()`, then a dict whose `Response` is
`"False"` raises `ValueError`; `.get` on a non-dict body raises
`AttributeError`.  The params→response mapping is the transport world. -/
def makeRequest (resp : HttpResponse) : Except PyErr Val :=
  if resp.status != 200 then .error .httpError
  else
    match resp.jsonBody with
    | .error e => .error e
    | .ok data =>
      match data with
      | .dict d =>
        if (match dictGet d "Response" with
            | .str s => s == "False"
            | _ => false) then .error .valueError
        else .ok data
      | _ => .error .attributeError

/-- `OmdbClient` as a `Client`: it exposes `search` (callable
positionally or with `title=`, its declared keyword), `get_movie_details`
(one positional/`imdb_id` argument; the probed conventions `imdbid=` and
`id=` are unexpected keywords, a `TypeError`), and a plain `api_key`
attribute; none of the probed by-ID names exist on it.  `world` maps the
requested title or id to the transport response. -/
def omdbClientAsClient (apiKey : String) (world : Val → HttpResponse) :
    Client where
  slot name :=
    if name == "search" then
      .callable (fun args =>
        match args with
        | .pos t => makeRequest (world t)
        | .kwTitle t => makeRequest (world t)
        | _ => .error .typeError)
    else if name == "get_movie_details" then
      .callable (fun args =>
        match args with
        | .pos i => makeRequest (world i)
        | _ => .error .typeError)
    else if name == "api_key" then .plain (.str apiKey)
    else .absent

/-! ## Claim-side definitions

Each follows the wording of a spec sentence, for comparison against the
definitions above, which are translated from the source. -/

def isOkE {α : Type} : Except PyErr α → Bool
  | .ok _ => true
  | .error _ => false

/-- C4's claimed invariant, following the spec's words: the Year field
is null or a 4-digit integer. -/
def isNullOr4DigitYear : Val → Bool
  | .none => true
  | .int n => decide (1000 ≤ n) && decide (n ≤ 9999)
  | _ => false

/-- C8's genre rule, following the claim's words: a comma-separated
string maps to its trimmed non-empty parts, a sequence to its elements
stringified and trimmed (the claim names no dropping here), anything
else to the empty sequence. -/
def genresSpecClaim : Val → List String
  | .str s => ((pySplitComma s).map pyStrip).filter (fun g => g != "")
  | .vlist xs => xs.map (fun g => pyStrip (pyStr g))
  | _ => []

/-- C8 amended: as the code has it, the sequence branch also drops
elements that are empty after stripping. -/
def genresSpecAmended : Val → List String
  | .str s => ((pySplitComma s).map pyStrip).filter (fun g => g != "")
  | .vlist xs => (xs.map (fun g => pyStrip (pyStr g))).filter (fun g => g != "")
  | _ => []

/-- C1's claimed resolution order, following the spec's words (§4.3):
per candidate name, positional, then `imdbid=`, then `id=`; a
wrong-arity failure tries the next convention, any other exception moves
to the next candidate NAME — never propagating; the first call that does
not raise returns its payload ("success is defined purely as did not
raise"). -/
def specProbe (client : Client) (imdbId : Val) : List String → Option Val
  | [] => Option.none
  | name :: rest =>
    match client.slot name with
    | .callable f =>
      match f (.pos imdbId) with
      | .ok v => some v
      | .error .typeError =>
        match f (.kwImdbid imdbId) with
        | .ok v => some v
        | .error .typeError =>
          match f (.kwId imdbId) with
          | .ok v => some v
          | .error _ => specProbe client imdbId rest
        | .error _ => specProbe client imdbId rest
      | .error _ => specProbe client imdbId rest
    | _ => specProbe client imdbId rest

/-- The probing pattern under which `_fetch_by_imdb_id` propagates an
exception: the positional call raises `TypeError` and the `imdbid=`
retry raises something other than `TypeError`. -/
def slotPropagates (s : ClientSlot) (imdbId : Val) : Bool :=
  match s with
  | .callable f =>
    match f (.pos imdbId) with
    | .error .typeError =>
      match f (.kwImdbid imdbId) with
      | .error .typeError => false
      | .error _ => true
      | .ok _ => false
    | _ => false
  | _ => false

/-- The value the HTTP-fallback tail of `_fetch_by_imdb_id` produces
(never an exception). -/
def httpFallbackResult (st : Settings) (http : HttpWorld) : Val :=
  let apiKey := pyOr st.OMDB_API_KEY (pyOr st.OMDB_APIKEY st.OMDB_KEY)
  if !pyTruthy apiKey then Val.none
  else
    match http with
    | .error _ => Val.none
    | .ok data =>
      match data with
      | .dict d =>
        if (match dictGet d "Response" with
            | .str s => s == "True"
            | _ => false) then data
        else Val.none
      | _ => Val.none

/-- One convention attempt of the C5 claim's string-variant lookup:
raise of a wrong-arity error moves on, any other exception aborts the
whole attempt, a truthy result is normalized and merged (`Type` read off
the raw result), a falsy one moves on. -/
inductive LookupStep where
  | found (item : SearchItem)
  | aborted
  | next

def tryConvClaim (s : String) (f : CallArgs → Except PyErr Val)
    (args : CallArgs) : LookupStep :=
  match f args with
  | .error .typeError => .next
  | .error _ => .aborted
  | .ok res =>
    if pyTruthy res then
      match normalizeDetailObj res with
      | .error .typeError => .next
      | .error _ => .aborted
      | .ok det =>
        .found ⟨pyOr det.title (.str s), det.year, det.imdbID, typeAttrOf res⟩
    else .next

/-- C5's lookup as the claim words it: each method tried with the
keyword convention and then the positional convention before moving to
the next method. -/
def stringLookupClaimGo (client : Client) (s : String) :
    List String → SearchItem
  | [] => stringFallback s
  | name :: rest =>
    match client.slot name with
    | .callable f =>
      match tryConvClaim s f (.kwTitle (.str s)) with
      | .found item => item
      | .aborted => stringFallback s
      | .next =>
        match tryConvClaim s f (.pos (.str s)) with
        | .found item => item
        | .aborted => stringFallback s
        | .next => stringLookupClaimGo client s rest
    | _ => stringLookupClaimGo client s rest

/-- C5 amended: what the code does — `get` is tried with the keyword
convention ONLY, the other names positionally ONLY, one attempt per
method. -/
def stringLookupAmendedGo (client : Client) (s : String) :
    List String → SearchItem
  | [] => stringFallback s
  | name :: rest =>
    match client.slot name with
    | .callable f =>
      match tryConvClaim s f
          (if name == "get" then CallArgs.kwTitle (.str s)
           else CallArgs.pos (.str s)) with
      | .found item => item
      | .aborted => stringFallback s
      | .next => stringLookupAmendedGo client s rest
    | _ => stringLookupAmendedGo client s rest

/-- C6's "recent" classification, following the spec's words: the
record existed before the call AND its `last_search` lies within the
last 24 hours. -/
def recentClaim (db : DB) (nterm : String) (nowT : Int) : Bool :=
  match lookupTerm db nterm with
  | some r =>
    match r.last_search with
    | some t => decide (nowT - t < daySeconds)
    | Option.none => false
  | Option.none => false

/-- C3's safety condition on a payload: every callable attribute returns
rather than raises (trivially true for non-objects). -/
def attrsSafe : Val → Bool
  | .obj attrs => attrs.all (fun p =>
      match p.2 with
      | .func (Sum.inl _) => false
      | _ => true)
  | _ => true

/-- Items of the shapes whose processing in `search_and_save` is fully
exception-guarded: bare strings and mappings. -/
def strOrDict : Val → Bool
  | .str _ => true
  | .dict _ => true
  | _ => false

/-! ## Concrete fixtures for counterexamples and witnesses -/

def settings0 : Settings := ⟨Val.none, Val.none, Val.none, Val.none, Val.none⟩

/-- Settings with the explicit rescrape-allow override configured. -/
def settingsOverride : Settings :=
  ⟨Val.none, Val.none, Val.none, Val.bool true, Val.none⟩

def db0 : DB := ⟨[], [], []⟩

/-- A client exposing no attributes at all. -/
def clientNone : Client := ⟨fun _ => ClientSlot.absent⟩

/-- A client whose `get_by_imdb_id` raises `TypeError` positionally and
`ValueError` under `imdbid=` — the pattern the probe propagates. -/
def c1BadClient : Client where
  slot name :=
    if name == "get_by_imdb_id" then
      .callable (fun args =>
        match args with
        | .pos _ => .error .typeError
        | .kwImdbid _ => .error .valueError
        | _ => .error .otherError)
    else .absent

/-- A client whose `by_id` answers the positional call. -/
def c1GoodClient : Client where
  slot name :=
    if name == "by_id" then
      .callable (fun args =>
        match args with
        | .pos _ => .ok (.dict [("Title", .str "The Matrix"),
            ("Year", .str "1999"), ("imdbID", .str "tt0133093")])
        | _ => .error .typeError)
    else .absent

/-- A client whose `get` rejects the keyword call with `TypeError` but
would answer positionally — the conventions C5 disagrees about. -/
def c5Client : Client where
  slot name :=
    if name == "get" then
      .callable (fun args =>
        match args with
        | .pos _ => .ok (.dict [("Title", .str "Foo"),
            ("imdbID", .str "tt0000001")])
        | _ => .error .typeError)
    else .absent

/-- A transport world whose every response is HTTP 200 carrying
`Response: "False"` — the upstream-reported application error. -/
def worldFalse : Val → HttpResponse :=
  fun _ => ⟨200, .ok (.dict [("Response", .str "False"),
    ("Error", .str "Movie not found!")])⟩

/-- A transport world whose every response is an HTTP 404. -/
def world404 : Val → HttpResponse :=
  fun _ => ⟨404, .ok Val.none⟩

/-- A transport world answering 200 with an empty successful search
envelope. -/
def worldEmptySearch : Val → HttpResponse :=
  fun _ => ⟨200, .ok (.dict [("Response", .str "True"),
    ("Search", .vlist []), ("totalResults", .str "0")])⟩

/-- One well-formed search hit, as a raw entry and inside the envelope. -/
def matrixEntry : Val :=
  .dict [("Title", .str "The Matrix"), ("Year", .str "1999"),
    ("imdbID", .str "tt0133093"), ("Type", .str "movie")]

/-- A transport world answering 200 with one `Type: "movie"` hit. -/
def worldOneMovie : Val → HttpResponse :=
  fun _ => ⟨200, .ok (.dict [("Response", .str "True"),
    ("Search", .vlist [matrixEntry]), ("totalResults", .str "1")])⟩

/-- A partial movie record awaiting enrichment. -/
def partialMovie : MovieRec :=
  ⟨.str "tt0133093", .str "The Matrix", Val.none, Val.none, Val.none, [], false⟩

/-- A movie record already marked full. -/
def fullMovie : MovieRec :=
  ⟨.str "tt0133093", .str "The Matrix", .int 1999, .str "plot",
   .int 136, ["Action"], true⟩

/-- A store holding one SearchTerm for "the matrix" last searched at
time 900. -/
def dbRecent : DB := ⟨[⟨"the matrix", some 900⟩], [], []⟩

/-! # Theorems

Shared helper lemmas first, then one theorem per claim (with its
counterexample and witness where required). -/

theorem digitVal_bounds {c : Char} (h : c.isDigit = true) :
    0 ≤ digitVal c ∧ digitVal c ≤ 9 := by
  simp only [Char.isDigit, Bool.and_eq_true, decide_eq_true_eq] at h
  obtain ⟨h1, h2⟩ := h
  have n1 : (48 : Nat) ≤ c.val.toNat := h1
  have n2 : c.val.toNat ≤ (57 : Nat) := h2
  unfold digitVal Char.toNat
  omega

theorem leading4_bounds {s : String} {n : Int} (h : leading4 s = some n) :
    0 ≤ n ∧ n < 10000 := by
  unfold leading4 at h
  split at h
  · split at h
    · rename_i a b c d rest hdig
      simp only [Option.some.injEq] at h
      simp only [Bool.and_eq_true] at hdig
      obtain ⟨⟨⟨ha, hb⟩, hc⟩, hd4⟩ := hdig
      obtain ⟨a0, a9⟩ := digitVal_bounds ha
      obtain ⟨b0, b9⟩ := digitVal_bounds hb
      obtain ⟨c0, c9⟩ := digitVal_bounds hc
      obtain ⟨d0, d9⟩ := digitVal_bounds hd4
      subst h
      unfold digitsVal
      simp only [List.foldl]
      constructor <;> nlinarith
    · exact absurd h (by simp)
  · exact absurd h (by simp)

/-- Any safe payload's attribute reads return (`attrsSafe` forbids
exactly the raising callables). -/
theorem callableAttr_ok {v : Val} (h : attrsSafe v = true) (name : String) :
    ∃ w, callableAttr v name = .ok w := by
  unfold callableAttr
  cases v <;> simp only [getattrRaw] <;> try exact ⟨Val.none, rfl⟩
  case obj attrs =>
    simp only [attrsSafe, List.all_eq_true] at h
    unfold dictGet
    rcases hf : attrs.find? (fun p => p.1 == name) with _ | ⟨k, w⟩
    · simp only [hf]
      exact ⟨Val.none, rfl⟩
    · simp only [hf]
      have hp := h (k, w) (List.mem_of_find?_eq_some hf)
      rcases w with _ | b | m | s | xs | es | ats | r
      case func =>
        rcases r with e | w'
        · simp at hp
        · exact ⟨w', rfl⟩
      all_goals exact ⟨_, rfl⟩

/-- Field extraction returns on every safe payload. -/
theorem extractDetailFields_ok {v : Val} (h : attrsSafe v = true) :
    ∃ t, extractDetailFields v = .ok t := by
  cases v <;> first
    | exact ⟨_, rfl⟩
    | · simp only [extractDetailFields]
        obtain ⟨w1, e1⟩ := callableAttr_ok h "title"
        obtain ⟨w2, e2⟩ := callableAttr_ok h "year"
        obtain ⟨w3, e3⟩ := callableAttr_ok h "imdb_id"
        obtain ⟨w4, e4⟩ := callableAttr_ok h "imdbID"
        obtain ⟨w5, e5⟩ := callableAttr_ok h "plot"
        obtain ⟨w6, e6⟩ := callableAttr_ok h "runtime"
        obtain ⟨w7, e7⟩ := callableAttr_ok h "runtime_minutes"
        obtain ⟨w8, e8⟩ := callableAttr_ok h "genres"
        cases ht3 : pyTruthy w3 <;> cases ht6 : pyTruthy w6 <;>
          simp [e1, e2, e3, e4, e5, e6, e7, e8, ht3, ht6,
            bind, Except.bind, pure, Except.pure]

/-- The value the year blocks produce is always `None`, an int, or a
bool passed through the `isinstance(year, int)` branch. -/
theorem yearShape (y : Val) :
    normalizeYearDetail y = Val.none ∨ (∃ n, normalizeYearDetail y = Val.int n) ∨
      (∃ b, normalizeYearDetail y = Val.bool b) := by
  unfold normalizeYearDetail
  split
  · rename_i h
    cases y <;> simp only [isInstInt, Bool.false_eq_true] at h
    · exact Or.inr (Or.inr ⟨_, rfl⟩)
    · exact Or.inr (Or.inl ⟨_, rfl⟩)
  · split
    · exact Or.inr (Or.inl ⟨_, rfl⟩)
    · split
      · rename_i n hm
        exact Or.inr (Or.inl ⟨n, rfl⟩)
      · exact Or.inl rfl

/-- Every record the Detail Normalizer returns has a year of that shape. -/
theorem detailYear_shape {payload : Val} {det : CanonicalDetail}
    (h : normalizeDetailObj payload = .ok det) :
    det.year = Val.none ∨ (∃ n, det.year = Val.int n) ∨
      (∃ b, det.year = Val.bool b) := by
  unfold normalizeDetailObj at h
  split at h
  · simp only [Except.ok.injEq] at h
    subst h
    exact Or.inl rfl
  · split at h
    · exact absurd h (by simp)
    · simp only [Except.ok.injEq] at h
      subst h
      simp only [assembleDetail]
      exact yearShape _

/-- C10: for every input value, the inline year-normalization block in
`search_and_save` produces the same result as the year normalization
inside `_normalize_detail_obj` — the two code paths are equivalent
embeddings of one rule. -/
theorem C10_year_blocks_equivalent (year : Val) :
    normalizeYearInline year = normalizeYearDetail year := by
  cases year <;> rfl

/-- C7: `fill_movie_details` on a record whose `is_full_record` flag is
set performs zero mutations of the record, its genre associations and
the store, and zero upstream calls: the result is the unchanged record
and store with an empty effect trace. -/
theorem C7_full_record_noop (client : Client) (st : Settings)
    (http : HttpWorld) (movie : MovieRec) (db : DB)
    (h : movie.is_full_record = true) :
    fillMovieDetails client st http movie db = (.ok (movie, db), []) := by
  simp [fillMovieDetails, h]

theorem C7_witness :
    fillMovieDetails clientNone settings0 (.ok Val.none) fullMovie db0 =
      (.ok (fullMovie, db0), []) :=
  C7_full_record_noop clientNone settings0 (.ok Val.none) fullMovie db0 rfl

/-- The Detail Normalizer returns on every safe payload. -/
theorem normalizeDetailObj_ok {v : Val} (h : attrsSafe v = true) :
    isOkE (normalizeDetailObj v) = true := by
  cases v
  case none => rfl
  all_goals
    obtain ⟨t, ht⟩ := extractDetailFields_ok h
    obtain ⟨t1, t2, t3, t4, t5, t6⟩ := t
    simp [normalizeDetailObj, ht, isOkE]

/-- C3 counterexample: an attribute-bearing payload whose callable
`title` attribute raises `ValueError` makes `_normalize_detail_obj`
raise — the claim's "never raises" fails on this input. -/
theorem C3_counterexample :
    normalizeDetailObj (Val.obj [("title", Val.func (Sum.inl PyErr.valueError))]) =
      .error PyErr.valueError := rfl

/-- C3 (amended): `_normalize_detail_obj` never raises on mapping,
string, `None` or plain-value payloads, and on attribute-bearing objects
provided every callable attribute returns rather than raises (a raising
callable propagates); a mapping with every field missing degrades to the
all-null record rather than failing. -/
theorem C3_normalize_detail_safe :
    (∀ v : Val, attrsSafe v = true → isOkE (normalizeDetailObj v) = true) ∧
    normalizeDetailObj (Val.dict []) = .ok emptyDetail :=
  ⟨fun _ h => normalizeDetailObj_ok h, rfl⟩

theorem C3_witness :
    isOkE (normalizeDetailObj (Val.obj
      [("title", Val.func (Sum.inr (Val.str "Heat"))),
       ("year", Val.int 1995)])) = true :=
  C3_normalize_detail_safe.1 _ (by decide)

/-- C4 counterexample: the payload `\x7b"Year": "123"\x7d` produces the
3-digit integer 123 — an integer value that is not a 4-digit integer,
refuting "the Year field is either null or a 4-digit integer". -/
theorem C4_counterexample :
    normalizeDetailObj (Val.dict [("Year", Val.str "123")]) =
      .ok ⟨Val.none, Val.int 123, Val.none, Val.none, Val.none, []⟩ ∧
    isNullOr4DigitYear (Val.int 123) = false :=
  ⟨rfl, by decide⟩

/-- C4 (amended): the Year of every record `_normalize_detail_obj`
produces is null or an integer (bools passing through the
`isinstance(year, int)` branch as Python's int subtype); and whenever
the input year is neither an int nor an all-digit string, a non-null
result is exactly the integer value of the leading four digits of the
input's string form — a value in [0, 10000), but not necessarily
4-digit, since leading zeros shrink it. -/
theorem C4_year_invariant :
    (∀ (payload : Val) (det : CanonicalDetail),
      normalizeDetailObj payload = .ok det →
        det.year = Val.none ∨ (∃ n, det.year = Val.int n) ∨
          (∃ b, det.year = Val.bool b)) ∧
    (∀ y : Val, isInstInt y = false → isDigitStr y = false →
      normalizeYearDetail y = Val.none ∨
        ∃ n, normalizeYearDetail y = Val.int n ∧
          leading4 (pyStr y) = some n ∧ 0 ≤ n ∧ n < 10000) := by
  constructor
  · intro payload det h
    exact detailYear_shape h
  · intro y h1 h2
    cases y
    case none => exact Or.inl rfl
    case bool b => exact absurd h1 (by simp [isInstInt])
    case int n => exact absurd h1 (by simp [isInstInt])
    all_goals
      unfold normalizeYearDetail
      rw [h1, h2]
      simp only [Bool.false_eq_true, if_false]
      split
      · rename_i n heq
        obtain ⟨hn0, hn1⟩ := leading4_bounds heq
        exact Or.inr ⟨n, rfl, heq, hn0, hn1⟩
      · exact Or.inl rfl

theorem C4_witness :
    (Val.int 1999 = Val.none ∨ (∃ n, Val.int 1999 = Val.int n) ∨
      (∃ b, Val.int 1999 = Val.bool b)) ∧
    (normalizeYearDetail (Val.str "1999-2003") = Val.none ∨
      ∃ n, normalizeYearDetail (Val.str "1999-2003") = Val.int n ∧
        leading4 (pyStr (Val.str "1999-2003")) = some n ∧ 0 ≤ n ∧ n < 10000) :=
  ⟨C4_year_invariant.1 (Val.dict [("Year", Val.str "1999")])
      ⟨Val.none, Val.int 1999, Val.none, Val.none, Val.none, []⟩ rfl,
   C4_year_invariant.2 (Val.str "1999-2003") rfl (by decide)⟩

/-- C8 counterexample: on the sequence input `["", "Action"]` the code
drops the empty element while the claim's sequence clause ("its elements
stringified and trimmed", with no dropping) keeps it. -/
theorem C8_counterexample :
    normalizeGenres (Val.vlist [Val.str "", Val.str "Action"]) = ["Action"] ∧
    genresSpecClaim (Val.vlist [Val.str "", Val.str "Action"]) = ["", "Action"] ∧
    normalizeGenres (Val.vlist [Val.str "", Val.str "Action"]) ≠
      genresSpecClaim (Val.vlist [Val.str "", Val.str "Action"]) := by
  refine ⟨by decide, by decide, by decide⟩

/-- C8 (amended): genre normalization maps a comma-separated string to
its trimmed non-empty parts, a sequence to its elements stringified and
trimmed WITH empty results dropped, and anything else to the empty
sequence; the claim's three examples hold. -/
theorem C8_genres :
    (∀ g : Val, normalizeGenres g = genresSpecAmended g) ∧
    normalizeGenres (Val.str "Action, Drama") = ["Action", "Drama"] ∧
    normalizeGenres (Val.vlist []) = [] ∧
    normalizeGenres Val.none = [] := by
  refine ⟨fun g => by cases g <;> rfl, by decide, rfl, rfl⟩

/-- When no candidate method exhibits the propagating pattern, the probe
loop never raises and computes exactly the spec's resolution procedure. -/
theorem probeLoop_refines (client : Client) (imdbId : Val) :
    ∀ names : List String,
      (∀ name ∈ names, slotPropagates (client.slot name) imdbId = false) →
      (probeLoop client imdbId names).1 = .ok (specProbe client imdbId names)
  | [], _ => rfl
  | name :: rest, h => by
    have hn := h name (List.mem_cons_self name rest)
    have hr : ∀ n ∈ rest, slotPropagates (client.slot n) imdbId = false :=
      fun n hm => h n (List.mem_cons_of_mem name hm)
    have ih := probeLoop_refines client imdbId rest hr
    simp only [probeLoop, specProbe]
    rcases hs : client.slot name with _ | v | f <;> simp only [hs]
    · exact ih
    · exact ih
    · simp only [slotPropagates, hs] at hn
      simp only [tryGetterConvs]
      rcases hpos : f (.pos imdbId) with e | v <;> simp only [hpos] at hn ⊢
      cases e
      case typeError =>
        rcases hkw : f (.kwImdbid imdbId) with e2 | v2 <;>
          simp only [hkw] at hn ⊢
        cases e2
        case typeError =>
          rcases hid : f (.kwId imdbId) with e3 | v3 <;>
            simp only [hid] <;> first | rfl | exact ih
        all_goals exact absurd hn (by simp)
      all_goals exact ih

/-- The HTTP-fallback tail of `_fetch_by_imdb_id` computes
`httpFallbackResult`. -/
theorem fetch_fallback_value (client : Client) (st : Settings)
    (http : HttpWorld) (imdbId : Val) (eff : List Effect)
    (hp : probeLoop client imdbId probeNames = (.ok Option.none, eff)) :
    (fetchByImdbIdE client st http imdbId).1 =
      .ok (httpFallbackResult st http) := by
  unfold fetchByImdbIdE httpFallbackResult
  rw [hp]
  cases hkey : !pyTruthy (pyOr st.OMDB_API_KEY (pyOr st.OMDB_APIKEY st.OMDB_KEY))
  · simp only [hkey, Bool.false_eq_true, if_false]
    cases http with
    | error e => rfl
    | ok data =>
      cases data <;> try rfl
      case dict d =>
        by_cases hresp : (match dictGet d "Response" with
            | Val.str s => s == "True"
            | _ => false) = true
        · simp only [if_pos hresp]
        · simp only [if_neg hresp]
  · simp only [hkey, if_true]

/-- When no candidate method exhibits the propagating pattern,
`_fetch_by_imdb_id` returns the spec's resolution (probe first, HTTP
fallback on total failure) without raising. -/
theorem fetchE_resolves (client : Client) (st : Settings)
    (http : HttpWorld) (imdbId : Val)
    (h : ∀ name ∈ probeNames, slotPropagates (client.slot name) imdbId = false) :
    (fetchByImdbIdE client st http imdbId).1 =
      .ok (match specProbe client imdbId probeNames with
           | some v => v
           | Option.none => httpFallbackResult st http) := by
  have hp := probeLoop_refines client imdbId probeNames h
  rcases hres : probeLoop client imdbId probeNames with ⟨r, eff⟩
  rw [hres] at hp
  simp only at hp
  subst hp
  rcases hsp : specProbe client imdbId probeNames with _ | v
  · rw [hsp] at hres
    exact fetch_fallback_value client st http imdbId eff hres
  · rw [hsp] at hres
    unfold fetchByImdbIdE
    rw [hres]

/-- C1 counterexample: a client whose `get_by_imdb_id` raises
`TypeError` positionally and then `ValueError` under the `imdbid=`
keyword makes `_fetch_by_imdb_id` raise — the non-arity exception in the
keyword handler is caught by no clause, refuting "never raises". -/
theorem C1_counterexample :
    fetchByImdbId c1BadClient settings0 (.ok Val.none) (.str "tt0133093") =
      .error PyErr.valueError := rfl

/-- C1 (amended): `_fetch_by_imdb_id` never raises and returns the raw
payload of the first candidate-method call that does not raise (or the
HTTP-fallback value, which is the payload or null, on total failure) —
PROVIDED no candidate method, after raising a wrong-arity error on the
positional call, raises a non-arity exception under the `imdbid=`
keyword convention; in that one case the exception propagates
(`C1_counterexample`). -/
theorem C1_fetch_resolution (client : Client) (st : Settings)
    (http : HttpWorld) (imdbId : Val)
    (h : ∀ name ∈ probeNames, slotPropagates (client.slot name) imdbId = false) :
    fetchByImdbId client st http imdbId =
      .ok (match specProbe client imdbId probeNames with
           | some v => v
           | Option.none => httpFallbackResult st http) :=
  fetchE_resolves client st http imdbId h

theorem C1_witness :
    fetchByImdbId c1GoodClient settings0 (.ok Val.none) (.str "tt0133093") =
      .ok (.dict [("Title", .str "The Matrix"), ("Year", .str "1999"),
        ("imdbID", .str "tt0133093")]) :=
  C1_fetch_resolution c1GoodClient settings0 (.ok Val.none)
    (.str "tt0133093") (by decide)

@[simp] theorem withEff_fst {α : Type} (pre : List Effect)
    (p : α × List Effect) : (withEff pre p).1 = p.1 := rfl

/-- The code's string-variant lookup computes the amended (one
convention per method) procedure. -/
theorem stringLookup_amended (client : Client) (s : String) :
    ∀ names : List String,
      (stringLookupGo client s names).1 = stringLookupAmendedGo client s names
  | [] => rfl
  | name :: rest => by
    have ih := stringLookup_amended client s rest
    simp only [stringLookupGo, stringLookupAmendedGo, tryConvClaim]
    rcases hs : client.slot name with _ | v | f <;> simp only [hs]
    · exact ih
    · exact ih
    · rcases hc : f (if name == "get" then CallArgs.kwTitle (.str s)
          else CallArgs.pos (.str s)) with e | res <;> (try simp only [hc])
      · cases e
        case typeError => simpa using ih
        all_goals rfl
      · cases htr : pyTruthy res <;> (try simp only [htr])
        · simpa using ih
        · rcases hn : normalizeDetailObj res with e2 | det <;> (try simp only [hn])
          · cases e2
            case typeError => simpa using ih
            all_goals rfl
          · rfl

/-- C5 counterexample: a client whose `get` rejects `get(title=...)`
with `TypeError` but answers `get("foo")` positionally.  The claim's
procedure (both conventions per method) retries positionally and gets a
merged record with an imdbID; the code moves straight to the next method
name and falls back to the bare-title record.  The two disagree. -/
theorem C5_counterexample :
    (stringLookupGo c5Client "foo" titleLookupNames).1 =
      stringFallback "foo" ∧
    stringLookupClaimGo c5Client "foo" titleLookupNames =
      ⟨Val.str "Foo", Val.none, Val.str "tt0000001", Val.none⟩ ∧
    (stringLookupGo c5Client "foo" titleLookupNames).1 ≠
      stringLookupClaimGo c5Client "foo" titleLookupNames := by
  refine ⟨rfl, rfl, fun h => ?_⟩
  exact Val.noConfusion (congrArg SearchItem.imdbID h)

/-- C5 (amended): on a bare-string item the Search-Item Normalizer tries
`get` with the keyword convention (`title=item`) ONLY and
`get_by_title`, `title`, `by_title` with the positional convention ONLY
— one convention per method, in that order; a wrong-arity error moves to
the next method, any other exception (in the call or the normalization
of its result) aborts to the fallback; the first truthy result is
normalized and merged with a `Type` read directly off the raw result;
total failure yields `\x7bTitle: the string, Year: null, imdbID: null,
Type: null\x7d`. -/
theorem C5_string_item_lookup (client : Client) (s : String) :
    (normalizeSearchItemE client (.str s)).1 =
      .ok (stringLookupAmendedGo client s titleLookupNames) := by
  have h := stringLookup_amended client s titleLookupNames
  simp only [normalizeSearchItemE]
  rcases hgo : stringLookupGo client s titleLookupNames with ⟨r, eff⟩
  rw [hgo] at h
  simp only at h
  simp only [hgo, h]

/-- A `recent` classification implies the record pre-existed. -/
theorem recent_implies_found {db : DB} {nterm : String} {nowT : Int}
    (h : searchRecent db nterm nowT = true) :
    ∃ r, lookupTerm db nterm = some r := by
  unfold searchRecent getOrCreateTerm at h
  rcases hl : lookupTerm db nterm with _ | r
  · rw [hl] at h
    simp at h
  · exact ⟨r, rfl⟩

/-- C6: the Cache Guard's `recent` flag holds exactly when the
SearchTerm record existed before the call and its `last_search` is
within the last 24 hours; when recent and no override is configured,
`search_and_save` returns with the store untouched (no Movie creation)
and an empty upstream trace; when recent with an override configured,
the upstream search is performed. -/
theorem C6_cache_guard :
    (∀ (db : DB) (nterm : String) (nowT : Int),
      searchRecent db nterm nowT = recentClaim db nterm nowT) ∧
    (∀ (client : Client) (st : Settings) (nowT : Int) (q : String) (db : DB),
      searchRecent db (normalizeSearchTermStr q) nowT = true →
      shouldOverrideCacheGuard st = false →
      searchAndSave client st nowT q db = (.ok db, [])) ∧
    (∀ (client : Client) (st : Settings) (nowT : Int) (q : String) (db : DB),
      searchRecent db (normalizeSearchTermStr q) nowT = true →
      shouldOverrideCacheGuard st = true →
      (client.slot "search").isCallable = true →
      Effect.searchCall q ∈ (searchAndSave client st nowT q db).2) := by
  refine ⟨?_, ?_, ?_⟩
  · intro db nterm nowT
    unfold searchRecent recentClaim getOrCreateTerm
    rcases hl : lookupTerm db nterm with _ | r <;> simp only [hl]
    · rfl
    · rcases hls : r.last_search with _ | t <;> simp only [hls]
      · rfl
      · simp only [Bool.not_false, Bool.true_and]
        exact decide_eq_decide.mpr (by omega)
  · intro client st nowT q db hrec hov
    obtain ⟨r, hr⟩ := recent_implies_found hrec
    simp only [searchAndSave, getOrCreateTerm, hr, hrec, hov,
      Bool.not_false, Bool.and_true, if_true]
  · intro client st nowT q db hrec hov hcall
    unfold searchAndSave
    simp only [hrec, hov, Bool.not_true, Bool.and_false,
      Bool.false_eq_true, if_false]
    unfold clientSearch
    rcases hs : client.slot "search" with _ | v | f <;>
      rw [hs] at hcall <;> try simp [ClientSlot.isCallable] at hcall
    simp only []
    rcases hf : f (.pos (.str q)) with e | v
    · simp
    · rcases hu : unwrapResults v with e2 | items
      · simp [hu]
      · rcases hp : processItems client items
            (getOrCreateTerm db (normalizeSearchTermStr q)).2.2 with ⟨r2, eff2⟩
        rcases r2 with e3 | db2 <;> simp [hu, hp]

theorem C6_witness :
    searchAndSave clientNone settings0 1000 "The  Matrix" dbRecent =
      (.ok dbRecent, []) ∧
    Effect.searchCall "The  Matrix" ∈
      (searchAndSave (omdbClientAsClient "k" worldEmptySearch)
        settingsOverride 1000 "The  Matrix" dbRecent).2 :=
  ⟨C6_cache_guard.2.1 clientNone settings0 1000 "The  Matrix" dbRecent
      (by decide) rfl,
   C6_cache_guard.2.2 (omdbClientAsClient "k" worldEmptySearch)
      settingsOverride 1000 "The  Matrix" dbRecent (by decide) rfl
      (by decide)⟩

theorem getOrCreateMovie_searchTerms (db : DB) (k t y : Val) :
    (getOrCreateMovie db k t y).1.searchTerms = db.searchTerms := by
  unfold getOrCreateMovie
  rcases hf : findMovie db k with _ | m <;> simp only [hf] <;> rfl

/-- Processing one search item touches only the movie table. -/
theorem processItem_searchTerms {client : Client} {raw : Val} {db db2 : DB}
    {eff : List Effect}
    (h : processItem client raw db = (.ok db2, eff)) :
    db2.searchTerms = db.searchTerms := by
  unfold processItem at h
  repeat' split at h
  all_goals injection h with h1 h2
  all_goals first | injection h1 with h1' | injection h1
  all_goals
    subst h1'
    first
    | rfl
    | (unfold upsertFromItem
       split
       · rfl
       · apply getOrCreateMovie_searchTerms)

/-- The whole result loop touches only the movie table. -/
theorem processItems_searchTerms {client : Client} :
    ∀ {items : List Val} {db db2 : DB} {eff : List Effect},
      processItems client items db = (.ok db2, eff) →
      db2.searchTerms = db.searchTerms := by
  intro items
  induction items with
  | nil =>
    intro db db2 eff h
    simp only [processItems, Prod.mk.injEq, Except.ok.injEq] at h
    rw [← h.1]
  | cons raw rest ih =>
    intro db db2 eff h
    unfold processItems at h
    split at h
    · exact absurd h (by simp)
    · rename_i db1 eff1 heq
      rcases hp : processItems client rest db1 with ⟨r2, eff2⟩
      rw [hp] at h
      simp only [withEff, Prod.mk.injEq] at h
      obtain ⟨h1, _⟩ := h
      rw [h1] at hp
      exact (ih hp).trans (processItem_searchTerms heq)

/-- A record for `t` is found in a list ending in a fresh record for
`t`. -/
theorem find_append_self :
    ∀ (l : List SearchTermRec) (t : String),
      ∃ r, ((l ++ [(⟨t, Option.none⟩ : SearchTermRec)]).find?
        (fun x => x.term == t)) = some r
  | [], t => ⟨⟨t, Option.none⟩, by simp⟩
  | x :: rest, t => by
    rcases hx : (x.term == t) with _ | _
    · obtain ⟨r, hr⟩ := find_append_self rest t
      exact ⟨r, by simp only [List.cons_append, List.find?, hx]; exact hr⟩
    · exact ⟨x, by simp only [List.cons_append, List.find?, hx]⟩

/-- After `get_or_create`, the term's record is present. -/
theorem getOrCreateTerm_found (db : DB) (t : String) :
    ∃ r, lookupTerm (getOrCreateTerm db t).2.2 t = some r := by
  unfold getOrCreateTerm
  rcases hl : lookupTerm db t with _ | r
  · simp only [hl]
    exact find_append_self db.searchTerms t
  · simp only [hl]
    exact ⟨r, rfl⟩

/-- Stamping overwrites the found record's `last_search`. -/
theorem find_stamp :
    ∀ (l : List SearchTermRec) (t : String) (ts : Int) (r : SearchTermRec),
      l.find? (fun x => x.term == t) = some r →
      ((l.map (fun x => if x.term == t then { x with last_search := some ts }
          else x)).find? (fun x => x.term == t)) = some ⟨t, some ts⟩
  | [], _, _, _, h => by simp at h
  | x :: rest, t, ts, r, h => by
    by_cases hx : (x.term == t) = true
    · have ht : x.term = t := by simpa using hx
      subst ht
      simp [List.find?]
    · simp only [List.find?, Bool.not_eq_true] at h
      rw [Bool.not_eq_true] at hx
      rw [hx] at h
      simp only [List.map_cons, List.find?, hx, Bool.false_eq_true, if_false]
      exact find_stamp rest t ts r h

theorem lookupTerm_stamp {db : DB} {t : String} {r : SearchTermRec}
    (h : lookupTerm db t = some r) (ts : Int) :
    lookupTerm (stampTerm db t ts) t = some ⟨t, some ts⟩ :=
  find_stamp db.searchTerms t ts r h

/-- C9: `search_and_save` keys the SearchTerm cache on the normalized
term (lowercased, whitespace runs collapsed) — after any run that
proceeds past the guard and returns, the record under
`normalizeSearchTermStr q` is stamped with `now` — while the upstream
client's `search` method receives the ORIGINAL query string; and two
queries differing only in case or internal whitespace share one cache
key while remaining distinct upstream requests. -/
theorem C9_cache_key_vs_upstream :
    (∀ (client : Client) (st : Settings) (nowT : Int) (q : String)
        (db db' : DB),
      (searchAndSave client st nowT q db).1 = .ok db' →
      (searchRecent db (normalizeSearchTermStr q) nowT &&
        !shouldOverrideCacheGuard st) = false →
      lookupTerm db' (normalizeSearchTermStr q) =
        some ⟨normalizeSearchTermStr q, some nowT⟩ ∧
      Effect.searchCall q ∈ (searchAndSave client st nowT q db).2) ∧
    (normalizeSearchTermStr "The  Matrix" = normalizeSearchTermStr "the matrix" ∧
      "The  Matrix" ≠ "the matrix") := by
  constructor
  · intro client st nowT q db db' hok hguard
    rcases hrun : searchAndSave client st nowT q db with ⟨res, trace⟩
    rw [hrun] at hok
    simp only at hok ⊢
    unfold searchAndSave at hrun
    simp only [hguard, Bool.false_eq_true, if_false] at hrun
    unfold clientSearch at hrun
    rcases hs : client.slot "search" with _ | v | f <;> rw [hs] at hrun <;>
      dsimp only at hrun
    · injection hrun with hA hB
      rw [← hA] at hok
      exact absurd hok (by simp)
    · injection hrun with hA hB
      rw [← hA] at hok
      exact absurd hok (by simp)
    · rcases hf : f (.pos (.str q)) with e | v2 <;> rw [hf] at hrun <;>
        dsimp only at hrun
      · injection hrun with hA hB
        rw [← hA] at hok
        exact absurd hok (by simp)
      · rcases hu : unwrapResults v2 with e2 | items <;> rw [hu] at hrun <;>
          dsimp only at hrun
        · injection hrun with hA hB
          rw [← hA] at hok
          exact absurd hok (by simp)
        · rcases hp : processItems client items
              (getOrCreateTerm db (normalizeSearchTermStr q)).2.2
              with ⟨r2, eff2⟩
          rw [hp] at hrun
          rcases r2 with e3 | db2 <;> dsimp only at hrun
          · injection hrun with hA hB
            rw [← hA] at hok
            exact absurd hok (by simp)
          · injection hrun with hA hB
            rw [← hA] at hok
            injection hok with hdb
            subst hdb
            constructor
            · obtain ⟨r0, hr0⟩ :=
                getOrCreateTerm_found db (normalizeSearchTermStr q)
              have hst := processItems_searchTerms hp
              have hlk : lookupTerm db2 (normalizeSearchTermStr q) = some r0 := by
                unfold lookupTerm at hr0 ⊢
                rw [hst]
                exact hr0
              exact lookupTerm_stamp hlk nowT
            · rw [← hB]
              exact List.mem_cons_self _ _
  · exact ⟨by decide, by decide⟩

theorem C9_witness :
    lookupTerm (DB.mk [⟨"the matrix", some 1000⟩] [] []) "the matrix" =
      some ⟨"the matrix", some 1000⟩ ∧
    Effect.searchCall "The Matrix" ∈
      (searchAndSave (omdbClientAsClient "k" worldEmptySearch) settings0 1000
        "The Matrix" db0).2 := by
  have h := C9_cache_key_vs_upstream.1 (omdbClientAsClient "k" worldEmptySearch)
    settings0 1000 "The Matrix" db0 (DB.mk [⟨"the matrix", some 1000⟩] [] [])
    rfl (by decide)
  exact ⟨h.1, h.2⟩

/-- Processing a bare-string or mapping item never raises: the string
path is fully guarded and the mapping path (including the by-title
re-resolution, which catches every exception) is total. -/
theorem processItem_ok {client : Client} {raw : Val} (db : DB)
    (h : strOrDict raw = true) :
    ∃ db2 eff, processItem client raw db = (.ok db2, eff) := by
  unfold processItem
  cases raw <;> simp only [strOrDict, Bool.false_eq_true] at h
  case str s =>
    simp only [normalizeSearchItemE]
    rcases hgo : stringLookupGo client s titleLookupNames with ⟨r, eff⟩
    dsimp only
    split
    · exact ⟨db, eff, rfl⟩
    · rcases hres : resolveMissingId client r.title r.year r.imdbID
        with ⟨t2, y2, i2, e2⟩
      exact ⟨_, _, rfl⟩
  case dict d =>
    simp only [normalizeSearchItemE]
    try dsimp only
    split
    · exact ⟨_, _, rfl⟩
    · rcases hres : resolveMissingId client (dictGet d "Title")
          (dictGet d "Year")
          (pyOr (dictGet d "imdbID") (pyOr (dictGet d "imdb_id")
            (dictGet d "imdbId"))) with ⟨t2, y2, i2, e2⟩
      exact ⟨_, _, rfl⟩

/-- The whole result loop never raises on a list of string/mapping
items. -/
theorem processItems_ok {client : Client} :
    ∀ {items : List Val} (db : DB),
      (∀ i ∈ items, strOrDict i = true) →
      ∃ db2 eff, processItems client items db = (.ok db2, eff)
  | [], db, _ => ⟨db, [], rfl⟩
  | raw :: rest, db, h => by
    obtain ⟨db1, eff1, h1⟩ :=
      @processItem_ok client raw db (h raw (List.mem_cons_self raw rest))
    obtain ⟨db2, eff2, h2⟩ := @processItems_ok client rest db1
      (fun i hi => h i (List.mem_cons_of_mem raw hi))
    exact ⟨db2, eff1 ++ eff2, by
      simp only [processItems, h1, h2, withEff]⟩

/-- C2 counterexample: with the provided `OmdbClient`, an upstream
search answering `Response: "False"` raises `ValueError` inside
`_make_request` and `search_and_save` propagates it; a non-2xx status
propagates the `raise_for_status` error likewise; and
`fill_movie_details` propagates the probe's keyword-path exception. -/
theorem C2_counterexample :
    (searchAndSave (omdbClientAsClient "key" worldFalse) settings0 1000
      "the matrix" db0).1 = .error PyErr.valueError ∧
    (searchAndSave (omdbClientAsClient "key" world404) settings0 1000
      "the matrix" db0).1 = .error PyErr.httpError ∧
    (fillMovieDetails c1BadClient settings0 (.ok Val.none)
      partialMovie db0).1 = .error PyErr.valueError :=
  ⟨rfl, rfl, rfl⟩

/-- C2 (amended): exceptions CAN propagate out of the orchestration
functions — an upstream search that raises (non-2xx or Response
`"False"`) makes `search_and_save` raise, and the by-ID probe's
keyword-path exception makes `fill_movie_details` raise
(`C2_counterexample`).  Otherwise failure is converted to no-data: when
the upstream search call returns and unwraps to a list of string- or
mapping-shaped entries, `search_and_save` raises nothing; and
`fill_movie_details` raises nothing when no probed method exhibits the
propagating pattern and the fetched payload's callable attributes
return. -/
theorem C2_exception_policy :
    (∀ (client : Client) (st : Settings) (nowT : Int) (q : String) (db : DB)
        (v : Val) (items : List Val),
      (clientSearch client q).1 = .ok v →
      unwrapResults v = .ok items →
      (∀ i ∈ items, strOrDict i = true) →
      isOkE (searchAndSave client st nowT q db).1 = true) ∧
    (∀ (client : Client) (st : Settings) (http : HttpWorld)
        (movie : MovieRec) (db : DB),
      (∀ name ∈ probeNames,
        slotPropagates (client.slot name) movie.imdb_id = false) →
      (∀ raw, (fetchByImdbIdE client st http movie.imdb_id).1 = .ok raw →
        attrsSafe raw = true) →
      isOkE (fillMovieDetails client st http movie db).1 = true) := by
  constructor
  · intro client st nowT q db v items hcs hu hitems
    unfold searchAndSave
    cases hguard : searchRecent db (normalizeSearchTermStr q) nowT &&
        !shouldOverrideCacheGuard st
    · simp only [hguard, Bool.false_eq_true, if_false]
      rcases hcsp : clientSearch client q with ⟨r1, eff1⟩
      rw [hcsp] at hcs
      simp only at hcs
      subst hcs
      obtain ⟨db2, eff2, hp⟩ := @processItems_ok client items
        (getOrCreateTerm db (normalizeSearchTermStr q)).2.2 hitems
      simp only [hu, hp]
      rfl
    · simp only [hguard, if_true]
      rfl
  · intro client st http movie db hprobe hsafe
    unfold fillMovieDetails
    cases hfull : movie.is_full_record
    · simp only [hfull, Bool.false_eq_true, if_false]
      have hfe := fetchE_resolves client st http movie.imdb_id hprobe
      rcases hF : fetchByImdbIdE client st http movie.imdb_id with ⟨rf, efff⟩
      rw [hF] at hfe
      simp only at hfe
      rcases rf with e | raw
      · exact absurd hfe (by simp)
      · dsimp only
        cases htr : pyTruthy raw
        · simp only [htr, Bool.not_false, if_true]
          rfl
        · simp only [htr, Bool.not_true, Bool.false_eq_true, if_false]
          have hs : attrsSafe raw = true := hsafe raw (by rw [hF])
          have hok := normalizeDetailObj_ok hs
          rcases hnd : normalizeDetailObj raw with e | det
          · rw [hnd] at hok
            exact absurd hok (by simp [isOkE])
          · rfl
    · simp only [hfull, if_true]
      rfl

theorem C2_witness :
    isOkE (searchAndSave (omdbClientAsClient "k" worldOneMovie) settings0 1000
      "the matrix" db0).1 = true ∧
    isOkE (fillMovieDetails c1GoodClient settings0 (.ok Val.none)
      partialMovie db0).1 = true := by
  constructor
  · exact C2_exception_policy.1 (omdbClientAsClient "k" worldOneMovie)
      settings0 1000 "the matrix" db0
      (.dict [("Response", .str "True"), ("Search", .vlist [matrixEntry]),
        ("totalResults", .str "1")])
      [matrixEntry] rfl rfl (by decide)
  · refine C2_exception_policy.2 c1GoodClient settings0 (.ok Val.none)
      partialMovie db0 (by decide) (fun raw hr => ?_)
    rw [show (fetchByImdbIdE c1GoodClient settings0 (.ok Val.none)
        partialMovie.imdb_id).1 =
      Except.ok (Val.dict [("Title", Val.str "The Matrix"),
        ("Year", Val.str "1999"),
        ("imdbID", Val.str "tt0133093")]) from rfl] at hr
    injection hr with hv
    rw [← hv]
    decide
